import Mathlib

/-!
Formal model of a login / token / role-check backend.

The model follows the source closely:
* `login` embeds the controller in `controllers/authController.js`;
* `generateToken`, `signToken`, `mkPayload` embed `utils/generateToken.js`
  (HS256 signing is modelled by a deterministic keyed MAC, `toyMac`);
* `jwtVerify`, `verifyTokenMw`, `extractToken` embed `middlewares/verifyToken.js`
  together with the `jose` verification it calls;
* `checkRole` embeds `middlewares/checkRole.js`;
* `adminRoute` embeds the guarded route `GET /data/admin` from `routes/dataRoutes.js`;
* `DBConn`, `storeConn`, `findByUsername` embed the SQLite lookup
  `db.get('SELECT * FROM users WHERE username = ?')` from `config/db.js`.

JS strings are Lean `String`s; absent values (`undefined`) are `Option`;
promise rejections / thrown errors are `Except`; the falsy test `!s` on a
string is `s = ""`.
-/

/-- A stored identity record: one row of the `users` table
(`id`, `username`, `passwordHashed`, `role`). -/
structure User where
  id : Int
  username : String
  passwordHashed : String
  role : String
  deriving DecidableEq, Repr

/-- The decoded payload attached to the request as `req.user` by the
verification middleware: `{ id, username, role }`. -/
structure Claims where
  id : Int
  username : String
  role : String
  deriving DecidableEq, Repr

/-- A JSON response body: either a bare `message` object or the login
success object `{ id, username, role, token }`. -/
inductive Body where
  | message (text : String)
  | loginSuccess (id : Int) (username : String) (role : String) (token : String)
  deriving DecidableEq, Repr

/-- An HTTP response: status code and JSON body. -/
structure HttpResponse where
  status : Nat
  body : Body
  deriving DecidableEq, Repr

/-- JSON string literal. -/
def jsonStr (s : String) : String := "\"" ++ s ++ "\""

/-- Byte-level serialization of a response body, as `res.json` would emit it. -/
def renderBody : Body → String
  | Body.message t => "\x7b\"message\":" ++ jsonStr t ++ "\x7d"
  | Body.loginSuccess i u r t =>
      "\x7b\"id\":" ++ toString i ++ ",\"username\":" ++ jsonStr u ++
      ",\"role\":" ++ jsonStr r ++ ",\"token\":" ++ jsonStr t ++ "\x7d"

/-- The field names present in a response body. -/
def bodyFields : Body → List String
  | Body.message _ => ["message"]
  | Body.loginSuccess _ _ _ _ => ["id", "username", "role", "token"]

/-- Split a character list at every occurrence of `sep`. -/
def splitChars (sep : Char) : List Char → List (List Char)
  | [] => [[]]
  | c :: cs =>
    let r := splitChars sep cs
    if c = sep then [] :: r
    else
      match r with
      | [] => [[c]]
      | h :: t => (c :: h) :: t

/-- JS-style single-character split: `"a b".split(' ') = ["a","b"]` and
`"".split(' ') = [""]`. -/
def splitStr (sep : Char) (s : String) : List String :=
  (splitChars sep s.data).map String.mk

/-- Decimal digit accumulation; `none` on any non-digit character. -/
def digitsToNat : List Char → Nat → Option Nat
  | [], acc => some acc
  | c :: cs, acc => if c.isDigit then digitsToNat cs (acc * 10 + (c.toNat - 48)) else none

/-- Parse a nonempty decimal numeral. -/
def strToNat (s : String) : Option Nat :=
  match s.data with
  | [] => none
  | cs => digitsToNat cs 0

/-- Parse an optionally negated decimal numeral. -/
def strToInt (s : String) : Option Int :=
  match s.data with
  | '-' :: c :: cs => (digitsToNat (c :: cs) 0).map (fun n => -(n : Int))
  | [] => none
  | cs => (digitsToNat cs 0).map Int.ofNat

/-- Failure kinds of token verification. -/
inductive TokenError where
  | malformed
  | badSignature
  | expired
  deriving DecidableEq, Repr

/-- The claims set signed into a token: the three user fields plus the
`exp` claim (seconds). -/
structure TokenPayload where
  id : Int
  username : String
  role : String
  exp : Nat
  deriving DecidableEq, Repr

/-- Serialization of the payload inside the compact token string. -/
def encodePayload (p : TokenPayload) : String :=
  toString p.id ++ "." ++ p.username ++ "." ++ p.role ++ "." ++ toString p.exp

/-- Deterministic keyed MAC standing in for HMAC-SHA256: the verifier
recomputes it from the shared secret and the serialized payload. -/
def toyMac (secret msg : String) : Nat :=
  (secret ++ "#" ++ msg).data.foldl (fun a c => (a * 131 + c.toNat + 1) % 1000000007) 7

/-- Compact signed token: serialized payload, a separator, and the MAC
over the serialized payload (the shape produced by
`new SignJWT(payload).setProtectedHeader(HS256).sign(secret)`). -/
def signToken (secret : String) (p : TokenPayload) : String :=
  encodePayload p ++ "~" ++ toString (toyMac secret (encodePayload p))

/-- Payload built by `generateToken` in `utils/generateToken.js`:
`{ id, username, role }` copied from the user record, and
`setExpirationTime('1m')`, i.e. `exp = now + 60`. -/
def mkPayload (user : User) (now : Nat) : TokenPayload :=
  { id := user.id, username := user.username, role := user.role, exp := now + 60 }

/-- Model of `generateToken(user)`: sign the payload with the
process-wide secret. -/
def generateToken (secret : String) (now : Nat) (user : User) : String :=
  signToken secret (mkPayload user now)

/-- Structural decoding of a compact token string: the payload segment,
the parsed payload, and the signature value carried by the token. -/
def parsePayload (s : String) : Option TokenPayload :=
  match splitStr '.' s with
  | [idStr, u, r, expStr] =>
    match strToInt idStr, strToNat expStr with
    | some i, some e => some { id := i, username := u, role := r, exp := e }
    | _, _ => none
  | _ => none

/-- Decode a compact token into payload segment, payload, and carried MAC. -/
def decodeToken (s : String) : Option (String × TokenPayload × Nat) :=
  match splitStr '~' s with
  | [ps, ss] =>
    match parsePayload ps, strToNat ss with
    | some p, some n => some (ps, p, n)
    | _, _ => none
  | _ => none

/-- Model of `jwtVerify(token, secret)` from the `jose` library:
structural decoding, signature validation against the recomputed MAC,
then the `exp` check (expired once the current time reaches `exp`).
Any failure is a thrown `TokenError`. -/
def jwtVerify (secret : String) (now : Nat) (tok : String) : Except TokenError TokenPayload :=
  match decodeToken tok with
  | none => Except.error TokenError.malformed
  | some (ps, p, sig) =>
    if sig = toyMac secret ps then
      if p.exp ≤ now then Except.error TokenError.expired
      else Except.ok p
    else Except.error TokenError.badSignature

/-- Outcome of a middleware: respond-and-stop, or pass `req.user` on. -/
inductive MwResult where
  | reject (resp : HttpResponse)
  | accept (user : Claims)
  deriving DecidableEq, Repr

/-- Token extraction, `authHeader.split(' ')[1]`, combined with the JS
falsiness test `!token`: `none` when there is no second segment or the
second segment is empty. -/
def extractToken (header : String) : Option String :=
  match (splitStr ' ' header).get? 1 with
  | none => none
  | some t => if t = "" then none else some t

/-- Middleware `verifyToken` from `middlewares/verifyToken.js`: 401 when
the header is absent (an empty header string is falsy in JS, hence also
absent), 401 when no token segment can be extracted, 403 when `jwtVerify`
throws, and otherwise `req.user = { id, username, role }`. -/
def verifyTokenMw (secret : String) (now : Nat) (authHeader : Option String) : MwResult :=
  match authHeader with
  | none => MwResult.reject ⟨401, Body.message "No token provided"⟩
  | some h =>
    if h = "" then MwResult.reject ⟨401, Body.message "No token provided"⟩
    else
      match extractToken h with
      | none => MwResult.reject ⟨401, Body.message "Malformed token"⟩
      | some tok =>
        match jwtVerify secret now tok with
        | Except.error _ => MwResult.reject ⟨403, Body.message "Invalid or expired token"⟩
        | Except.ok p => MwResult.accept ⟨p.id, p.username, p.role⟩

/-- Outcome of the role gate: respond-and-stop, or call `next()`. -/
inductive GateResult where
  | deny (resp : HttpResponse)
  | allow
  deriving DecidableEq, Repr

/-- The 403 body emitted by `checkRole`. -/
def accessDeniedResp : HttpResponse :=
  ⟨403, Body.message "Access denied: insufficient permissions"⟩

/-- Middleware `checkRole(roles)` from `middlewares/checkRole.js`: deny
with 403 if `req.user` is absent or `roles.includes(req.user.role)` is
false; otherwise `next()`. -/
def checkRole (roles : List String) (user : Option Claims) : GateResult :=
  match user with
  | none => GateResult.deny accessDeniedResp
  | some u =>
    if roles.contains u.role then GateResult.allow else GateResult.deny accessDeniedResp

/-- Behavior of `checkRole()` called with no argument: the JS parameter
default is `roles = []`. -/
def checkRoleDefault (user : Option Claims) : GateResult :=
  checkRole [] user

/-- An open database connection queried by username:
`db.get('SELECT * FROM users WHERE username = ?', [username])`, which may
reject (store unreachable) or resolve to at most one row. -/
abbrev DBConn := String → Except String (Option User)

/-- Lookup of the first row matching a username. -/
def findByUsername (users : List User) (u : String) : Option User :=
  users.find? (fun r => r.username == u)

/-- A healthy connection backed by the given rows. -/
def storeConn (users : List User) : DBConn :=
  fun u => Except.ok (findByUsername users u)

/-- Controller `login` from `controllers/authController.js`.
`dbc = none` models `getDB()` throwing because `connectDB()` has not run;
`compare` is `bcrypt.compare`, which may reject on a malformed hash;
`issue` is the token generation step, which may reject on a signing
failure. Every rejection inside the `try` block is caught and mapped to
the generic 500 response. -/
def login (dbc : Option DBConn) (compare : String → String → Except String Bool)
    (issue : User → Except String String) (username password : String) : HttpResponse :=
  if username = "" ∨ password = "" then ⟨400, Body.message "Username and password required"⟩
  else
    match dbc with
    | none => ⟨500, Body.message "Server error"⟩
    | some db =>
      match db username with
      | Except.error _ => ⟨500, Body.message "Server error"⟩
      | Except.ok none => ⟨401, Body.message "Invalid credentials"⟩
      | Except.ok (some user) =>
        match compare password user.passwordHashed with
        | Except.error _ => ⟨500, Body.message "Server error"⟩
        | Except.ok false => ⟨401, Body.message "Invalid credentials"⟩
        | Except.ok true =>
          match issue user with
          | Except.error _ => ⟨500, Body.message "Server error"⟩
          | Except.ok token => ⟨200, Body.loginSuccess user.id user.username user.role token⟩

/-- Guarded route `GET /data/admin` from `routes/dataRoutes.js`: the chain
`verifyToken`, `checkRole(['admin'])`, handler. The boolean records
whether the protected handler ran. -/
def adminRoute (secret : String) (now : Nat) (authHeader : Option String) :
    HttpResponse × Bool :=
  match verifyTokenMw secret now authHeader with
  | MwResult.reject r => (r, false)
  | MwResult.accept c =>
    match checkRole ["admin"] (some c) with
    | GateResult.deny r => (r, false)
    | GateResult.allow => (⟨200, Body.message "Admin content here"⟩, true)

/-- C10: with the empty required-role set — also the JS default when
`checkRole()` is called with no argument — the gate denies every request
with the 403 access-denied response, whatever the claims are: no role is
a member of the empty set, so the gate is fail-closed. -/
theorem checkRole_empty_fail_closed :
    (∀ user : Option Claims, checkRole [] user = GateResult.deny accessDeniedResp) ∧
    (∀ user : Option Claims, checkRoleDefault user = checkRole [] user) ∧
    (∀ c : Claims, checkRoleDefault (some c) = GateResult.deny accessDeniedResp) := by
  refine ⟨?_, ?_, ?_⟩
  · intro user
    cases user with
    | none => rfl
    | some c => rfl
  · intro user
    rfl
  · intro c
    rfl

/-- C6: the signed payload is exactly `{id, username, role}` copied from
the identity record plus the server-set `exp = now + 60`; the token is
the signature of that payload alone, and it is unchanged under any
change of the stored password hash (so neither the password nor its hash
can occur in the claims). -/
theorem generateToken_claims_exact (secret : String) (now : Nat) (user : User) (h : String) :
    mkPayload user now =
      { id := user.id, username := user.username, role := user.role, exp := now + 60 } ∧
    generateToken secret now user = signToken secret (mkPayload user now) ∧
    generateToken secret now { user with passwordHashed := h } =
      generateToken secret now user := by
  exact ⟨rfl, rfl, rfl⟩

/-- C2: the access gate denies (403 access-denied body) exactly when the
claims are absent or the claims role is not a member of the required set,
and allows exactly when it is a member; with required roles `["admin"]`
it denies role `advisor` and allows role `admin` — no role hierarchy. -/
theorem checkRole_decision :
    (∀ (roles : List String) (c : Claims),
      checkRole roles (some c) = GateResult.allow ↔ c.role ∈ roles) ∧
    (∀ (roles : List String) (c : Claims),
      checkRole roles (some c) = GateResult.deny accessDeniedResp ↔ c.role ∉ roles) ∧
    (∀ roles : List String, checkRole roles none = GateResult.deny accessDeniedResp) ∧
    (∀ (i : Int) (u : String),
      checkRole ["admin"] (some ⟨i, u, "advisor"⟩) = GateResult.deny accessDeniedResp) ∧
    (∀ (i : Int) (u : String),
      checkRole ["admin"] (some ⟨i, u, "admin"⟩) = GateResult.allow) := by
  have hc : ∀ (roles : List String) (a : String), roles.contains a = true ↔ a ∈ roles := by
    intro roles a
    exact List.elem_iff
  refine ⟨?_, ?_, ?_, ?_, ?_⟩
  · intro roles c
    by_cases hm : c.role ∈ roles
    · simp [checkRole, (hc roles c.role).2 hm, hm]
    · have hb : roles.contains c.role = false := by
        cases hb : roles.contains c.role with
        | false => rfl
        | true => exact absurd ((hc roles c.role).1 hb) hm
      simp [checkRole, hb, hm]
  · intro roles c
    by_cases hm : c.role ∈ roles
    · simp [checkRole, (hc roles c.role).2 hm, hm]
    · have hb : roles.contains c.role = false := by
        cases hb : roles.contains c.role with
        | false => rfl
        | true => exact absurd ((hc roles c.role).1 hb) hm
      simp [checkRole, hb, hm]
  · intro roles
    rfl
  · intro i u
    rfl
  · intro i u
    rfl

/-- C1: an unknown username and a wrong password on an existing username
produce the same login response — status 401 with the invalid-credentials
body — and the serialized response bodies are byte-identical. -/
theorem login_invalid_credentials_indistinguishable
    (users : List User) (compare : String → String → Except String Bool)
    (issue : User → Except String String)
    (u1 p1 u2 p2 : String) (r : User)
    (hu1 : u1 ≠ "") (hp1 : p1 ≠ "") (hu2 : u2 ≠ "") (hp2 : p2 ≠ "")
    (hfind1 : findByUsername users u1 = none)
    (hfind2 : findByUsername users u2 = some r)
    (hcmp : compare p2 r.passwordHashed = Except.ok false) :
    login (some (storeConn users)) compare issue u1 p1 =
      ⟨401, Body.message "Invalid credentials"⟩ ∧
    login (some (storeConn users)) compare issue u2 p2 =
      ⟨401, Body.message "Invalid credentials"⟩ ∧
    renderBody (login (some (storeConn users)) compare issue u1 p1).body =
      renderBody (login (some (storeConn users)) compare issue u2 p2).body := by
  have e1 : login (some (storeConn users)) compare issue u1 p1 =
      ⟨401, Body.message "Invalid credentials"⟩ := by
    simp [login, storeConn, hu1, hp1, hfind1]
  have e2 : login (some (storeConn users)) compare issue u2 p2 =
      ⟨401, Body.message "Invalid credentials"⟩ := by
    simp [login, storeConn, hu2, hp2, hfind2, hcmp]
  refine ⟨e1, e2, ?_⟩
  rw [e1, e2]

/-- C1 witness: with one stored user `admin1`, an unknown username and a
wrong password on `admin1` both yield the same 401 invalid-credentials
response. -/
theorem login_invalid_credentials_indistinguishable_witness :
    login (some (storeConn [⟨1, "admin1", "hash1", "admin"⟩]))
        (fun _ _ => Except.ok false) (fun _ => Except.ok "tok") "nobody" "pw" =
      ⟨401, Body.message "Invalid credentials"⟩ ∧
    login (some (storeConn [⟨1, "admin1", "hash1", "admin"⟩]))
        (fun _ _ => Except.ok false) (fun _ => Except.ok "tok") "admin1" "pw" =
      ⟨401, Body.message "Invalid credentials"⟩ ∧
    renderBody (login (some (storeConn [⟨1, "admin1", "hash1", "admin"⟩]))
        (fun _ _ => Except.ok false) (fun _ => Except.ok "tok") "nobody" "pw").body =
      renderBody (login (some (storeConn [⟨1, "admin1", "hash1", "admin"⟩]))
        (fun _ _ => Except.ok false) (fun _ => Except.ok "tok") "admin1" "pw").body :=
  login_invalid_credentials_indistinguishable
    [⟨1, "admin1", "hash1", "admin"⟩] (fun _ _ => Except.ok false) (fun _ => Except.ok "tok")
    "nobody" "pw" "admin1" "pw" ⟨1, "admin1", "hash1", "admin"⟩
    (by decide) (by decide) (by decide) (by decide) (by decide) (by decide) rfl

/-- C5: when the user is found, the password comparison succeeds and
token issuance succeeds, login responds 200 with exactly
`{id, username, role, token}` from the looked-up record and the issued
token, and the body carries no password or password-hash field. -/
theorem login_success_response
    (users : List User) (compare : String → String → Except String Bool)
    (issue : User → Except String String)
    (u p tok : String) (r : User)
    (hu : u ≠ "") (hp : p ≠ "")
    (hfind : findByUsername users u = some r)
    (hcmp : compare p r.passwordHashed = Except.ok true)
    (hiss : issue r = Except.ok tok) :
    login (some (storeConn users)) compare issue u p =
      ⟨200, Body.loginSuccess r.id r.username r.role tok⟩ ∧
    bodyFields (login (some (storeConn users)) compare issue u p).body =
      ["id", "username", "role", "token"] ∧
    "passwordHashed" ∉ bodyFields (login (some (storeConn users)) compare issue u p).body ∧
    "password" ∉ bodyFields (login (some (storeConn users)) compare issue u p).body := by
  have e : login (some (storeConn users)) compare issue u p =
      ⟨200, Body.loginSuccess r.id r.username r.role tok⟩ := by
    simp [login, storeConn, hu, hp, hfind, hcmp, hiss]
  refine ⟨e, ?_, ?_, ?_⟩
  · rw [e]
    rfl
  · rw [e]
    simp [bodyFields]
  · rw [e]
    simp [bodyFields]

/-- C5 witness: logging in as the stored `admin1` record with a matching
password and successful issuance returns the 200 identity-plus-token
body, whose fields are exactly id, username, role, token. -/
theorem login_success_response_witness :
    login (some (storeConn [⟨1, "admin1", "hash1", "admin"⟩]))
        (fun _ _ => Except.ok true) (fun _ => Except.ok "tok") "admin1" "pw" =
      ⟨200, Body.loginSuccess 1 "admin1" "admin" "tok"⟩ ∧
    bodyFields (login (some (storeConn [⟨1, "admin1", "hash1", "admin"⟩]))
        (fun _ _ => Except.ok true) (fun _ => Except.ok "tok") "admin1" "pw").body =
      ["id", "username", "role", "token"] ∧
    "passwordHashed" ∉ bodyFields (login (some (storeConn [⟨1, "admin1", "hash1", "admin"⟩]))
        (fun _ _ => Except.ok true) (fun _ => Except.ok "tok") "admin1" "pw").body ∧
    "password" ∉ bodyFields (login (some (storeConn [⟨1, "admin1", "hash1", "admin"⟩]))
        (fun _ _ => Except.ok true) (fun _ => Except.ok "tok") "admin1" "pw").body :=
  login_success_response [⟨1, "admin1", "hash1", "admin"⟩]
    (fun _ _ => Except.ok true) (fun _ => Except.ok "tok") "admin1" "pw" "tok"
    ⟨1, "admin1", "hash1", "admin"⟩ (by decide) (by decide) (by decide) rfl rfl

/-- C9: once input validation has passed, every unexpected failure —
uninitialized store (`getDB()` throws), unreachable store (the lookup
rejects), password-verifier rejection, or token-signing rejection — is
caught and answered with exactly 500 and the generic server-error body;
the internal error detail `e` never influences the response. -/
theorem login_server_error
    (compare : String → String → Except String Bool)
    (issue : User → Except String String) (u p : String)
    (hu : u ≠ "") (hp : p ≠ "") :
    login none compare issue u p = ⟨500, Body.message "Server error"⟩ ∧
    (∀ (db : DBConn) (e : String), db u = Except.error e →
      login (some db) compare issue u p = ⟨500, Body.message "Server error"⟩) ∧
    (∀ (users : List User) (r : User) (e : String),
      findByUsername users u = some r → compare p r.passwordHashed = Except.error e →
      login (some (storeConn users)) compare issue u p =
        ⟨500, Body.message "Server error"⟩) ∧
    (∀ (users : List User) (r : User) (e : String),
      findByUsername users u = some r → compare p r.passwordHashed = Except.ok true →
      issue r = Except.error e →
      login (some (storeConn users)) compare issue u p =
        ⟨500, Body.message "Server error"⟩) := by
  refine ⟨?_, ?_, ?_, ?_⟩
  · simp [login, hu, hp]
  · intro db e hdb
    simp [login, hu, hp, hdb]
  · intro users r e hfind hcmp
    simp [login, storeConn, hu, hp, hfind, hcmp]
  · intro users r e hfind hcmp hiss
    simp [login, storeConn, hu, hp, hfind, hcmp, hiss]

/-- C9 witness: with the database uninitialized, a validated login
request is answered with the generic 500 server-error body. -/
theorem login_server_error_witness :
    login none (fun _ _ => Except.ok true) (fun _ => Except.ok "tok") "admin1" "pw" =
      ⟨500, Body.message "Server error"⟩ :=
  (login_server_error (fun _ _ => Except.ok true) (fun _ => Except.ok "tok")
    "admin1" "pw" (by decide) (by decide)).1

/-- C4: the verification middleware maps failures exactly as follows —
absent header to 401 no-token body, header with no extractable token
segment to 401 malformed-token body, and any `jwtVerify` failure `e`
(signature or expiration alike) to 403 with the single
invalid-or-expired body, which therefore cannot distinguish the failure
kinds. -/
theorem verifyTokenMw_failure_mapping (secret : String) (now : Nat) :
    verifyTokenMw secret now none = MwResult.reject ⟨401, Body.message "No token provided"⟩ ∧
    (∀ h : String, h ≠ "" → extractToken h = none →
      verifyTokenMw secret now (some h) =
        MwResult.reject ⟨401, Body.message "Malformed token"⟩) ∧
    (∀ (h tok : String) (e : TokenError), h ≠ "" → extractToken h = some tok →
      jwtVerify secret now tok = Except.error e →
      verifyTokenMw secret now (some h) =
        MwResult.reject ⟨403, Body.message "Invalid or expired token"⟩) := by
  refine ⟨rfl, ?_, ?_⟩
  · intro h hne hex
    simp [verifyTokenMw, hne, hex]
  · intro h tok e hne hex hv
    simp [verifyTokenMw, hne, hex, hv]

/-- C4 witness: an authorization header whose token segment is an expired
but correctly signed token is answered with 403 and the
invalid-or-expired body. -/
theorem verifyTokenMw_failure_mapping_witness :
    verifyTokenMw "secret1" 60
        (some ("Bearer " ++ generateToken "secret1" 0 ⟨1, "admin1", "hash1", "admin"⟩)) =
      MwResult.reject ⟨403, Body.message "Invalid or expired token"⟩ :=
  (verifyTokenMw_failure_mapping "secret1" 60).2.2
    ("Bearer " ++ generateToken "secret1" 0 ⟨1, "admin1", "hash1", "admin"⟩)
    (generateToken "secret1" 0 ⟨1, "admin1", "hash1", "admin"⟩)
    TokenError.expired (by decide) (by decide) rfl

/-- C8: on the guarded `GET /data/admin` chain, a rejection by the token
middleware or a denial by the role gate short-circuits with that guard's
response and the handler never runs; the handler runs exactly when both
guards allow the request. -/
theorem guard_chain_short_circuit (secret : String) (now : Nat) (authHeader : Option String) :
    (∀ r, verifyTokenMw secret now authHeader = MwResult.reject r →
      adminRoute secret now authHeader = (r, false)) ∧
    (∀ c r, verifyTokenMw secret now authHeader = MwResult.accept c →
      checkRole ["admin"] (some c) = GateResult.deny r →
      adminRoute secret now authHeader = (r, false)) ∧
    (∀ c, verifyTokenMw secret now authHeader = MwResult.accept c →
      checkRole ["admin"] (some c) = GateResult.allow →
      adminRoute secret now authHeader = (⟨200, Body.message "Admin content here"⟩, true)) ∧
    ((adminRoute secret now authHeader).2 = true ↔
      ∃ c, verifyTokenMw secret now authHeader = MwResult.accept c ∧
        checkRole ["admin"] (some c) = GateResult.allow) := by
  refine ⟨?_, ?_, ?_, ?_⟩
  · intro r hv
    simp [adminRoute, hv]
  · intro c r hv hg
    simp [adminRoute, hv, hg]
  · intro c hv hg
    simp [adminRoute, hv, hg]
  · constructor
    · intro hr
      cases hv : verifyTokenMw secret now authHeader with
      | reject r => simp [adminRoute, hv] at hr
      | accept c =>
        cases hg : checkRole ["admin"] (some c) with
        | deny r => simp [adminRoute, hv, hg] at hr
        | allow => exact ⟨c, rfl, hg⟩
    · intro hexists
      obtain ⟨c, hv, hg⟩ := hexists
      simp [adminRoute, hv, hg]

/-- C8 witness: a correctly signed advisor token on the admin route is
denied by the role gate, so the chain answers with the access-denied
response and the handler does not run. -/
theorem guard_chain_short_circuit_witness :
    adminRoute "secret1" 10
        (some ("Bearer " ++ generateToken "secret1" 0 ⟨2, "advisor1", "hash2", "advisor"⟩)) =
      (accessDeniedResp, false) :=
  (guard_chain_short_circuit "secret1" 10
      (some ("Bearer " ++ generateToken "secret1" 0 ⟨2, "advisor1", "hash2", "advisor"⟩))).2.1
    ⟨2, "advisor1", "advisor"⟩ accessDeniedResp (by decide) (by decide)

/-- C7: a token issued at time `T` carries `exp = T + 60`; presented at
any time `now` at or past `T + 60`, verification cannot succeed — the
decoding either fails or yields that expired payload — so the middleware
rejects with 403 and the invalid-or-expired body, even though the
signature is the correct MAC for the payload. -/
theorem expired_token_rejected (secret : String) (T now : Nat) (user : User)
    (header : String)
    (hnow : T + 60 ≤ now) (hhd : header ≠ "")
    (hex : extractToken header = some (generateToken secret T user))
    (hdec : ∀ ps p sig, decodeToken (generateToken secret T user) = some (ps, p, sig) →
      p.exp = T + 60) :
    verifyTokenMw secret now (some header) =
      MwResult.reject ⟨403, Body.message "Invalid or expired token"⟩ := by
  have hj : ∀ p, jwtVerify secret now (generateToken secret T user) ≠ Except.ok p := by
    intro p hp
    rw [jwtVerify] at hp
    cases hd : decodeToken (generateToken secret T user) with
    | none => rw [hd] at hp; simp at hp
    | some x =>
      obtain ⟨ps, q, sig⟩ := x
      rw [hd] at hp
      by_cases hs : sig = toyMac secret ps
      · have hq : q.exp = T + 60 := hdec ps q sig hd
        have hle : q.exp ≤ now := by omega
        simp [hs, hle] at hp
      · simp [hs] at hp
  cases hv : jwtVerify secret now (generateToken secret T user) with
  | ok p => exact absurd hv (hj p)
  | error e => simp [verifyTokenMw, hhd, hex, hv]

/-- C7 witness: the token issued for `admin1` at time 0 carries `exp = 60`
and, presented at time 60 with its correct signature, is rejected with
403 and the invalid-or-expired body. -/
theorem expired_token_rejected_witness :
    verifyTokenMw "secret1" 60
        (some ("Bearer " ++ generateToken "secret1" 0 ⟨1, "admin1", "hash1", "admin"⟩)) =
      MwResult.reject ⟨403, Body.message "Invalid or expired token"⟩ :=
  expired_token_rejected "secret1" 0 60 ⟨1, "admin1", "hash1", "admin"⟩
    ("Bearer " ++ generateToken "secret1" 0 ⟨1, "admin1", "hash1", "admin"⟩)
    (by decide) (by decide) (by decide)
    (by
      intro ps p sig hd
      have hcomp : decodeToken (generateToken "secret1" 0 ⟨1, "admin1", "hash1", "admin"⟩) =
          some ("1.admin1.admin.60", ⟨1, "admin1", "admin", 60⟩,
            toyMac "secret1" "1.admin1.admin.60") := by decide
      rw [hcomp] at hd
      simp only [Option.some.injEq, Prod.mk.injEq] at hd
      obtain ⟨h1, h2, h3⟩ := hd
      rw [← h2])

/-- C3 counterexample: the middleware never checks the "Bearer" scheme —
a header using the "Basic" scheme but carrying a valid token in its
second segment is accepted and its claims are produced, contradicting
the claim that a non-Bearer scheme makes verification fail. -/
theorem scheme_not_checked_counterexample :
    verifyTokenMw "secret1" 10
        (some ("Basic " ++ generateToken "secret1" 0 ⟨1, "admin1", "hash1", "admin"⟩)) =
      MwResult.accept ⟨1, "admin1", "admin"⟩ := by decide

/-- C3 amended: the middleware ignores the scheme segment entirely —
whenever a second non-empty segment can be extracted from the header,
the outcome is exactly the outcome of `jwtVerify` on that segment, which
rejects with 403 on structurally invalid tokens, signature mismatch, and
past expiration, and produces the claims otherwise, regardless of the
scheme word. -/
theorem verifyTokenMw_scheme_agnostic (secret : String) (now : Nat) (h tok : String)
    (hne : h ≠ "") (hex : extractToken h = some tok) :
    verifyTokenMw secret now (some h) =
      (match jwtVerify secret now tok with
       | Except.ok p => MwResult.accept ⟨p.id, p.username, p.role⟩
       | Except.error _ =>
           MwResult.reject ⟨403, Body.message "Invalid or expired token"⟩) := by
  simp only [verifyTokenMw, hne, hex, if_neg]
  cases jwtVerify secret now tok with
  | ok p => rfl
  | error e => rfl

/-- C3 amended witness: a "Token" scheme with a garbage second segment is
rejected 403 via `jwtVerify` failing structurally. -/
theorem verifyTokenMw_scheme_agnostic_witness :
    verifyTokenMw "secret1" 10 (some "Token garbage") =
      MwResult.reject ⟨403, Body.message "Invalid or expired token"⟩ := by
  have h := verifyTokenMw_scheme_agnostic "secret1" 10 "Token garbage" "garbage"
    (by decide) (by decide)
  rw [h]
  decide
